import Mathlib

/-
Verification of the reflections_sync script: a shallow embedding of
src/reflections_sync.py.  Pure logic (project lookup, search-result
filtering, block construction, week-title formatting) is embedded as
Lean functions; the orchestrator `main` is embedded as a function from
a `World` (the outcomes of the environment lookups and of each network
call) to the trace of observable events (network calls and console
prints) together with a termination status (normal return vs. an
uncaught exception).
-/

namespace ReflectionsSync

/-! ## Todoist data model -/

/-- A Todoist project, as returned by `GET /projects`: the two fields the
script reads. -/
structure Project where
  id : String
  name : String
deriving DecidableEq, Repr

/-- A Todoist task, as returned by `GET /tasks?project_id=...`: the two
fields relevant to the script (`content` is the only one it reads when
building the page; `id` is carried to show it is never used). -/
structure Task where
  id : String
  content : String
deriving DecidableEq, Repr

/-- The pure core of `TodoistClient.get_project_id`: the loop
`for project in projects: if project["name"] == project_name: return project["id"]`,
run over the already-fetched project list; `None` becomes `none`. -/
def get_project_id (projects : List Project) (project_name : String) : Option String :=
  match projects with
  | [] => none
  | p :: rest =>
    if p.name == project_name then some p.id else get_project_id rest project_name

/-! ## Notion data model -/

/-- One rich-text run; the script reads only `plain_text`. -/
structure RichText where
  plain_text : String
deriving DecidableEq, Repr

/-- A title-like property value (the value under the `"title"` or `"Name"`
key of a page's properties).  Its `title` field is the rich-text array;
a missing `"title"` key inside the property behaves in the code exactly
like an empty array (both fail `title_prop.get("title") and len(...) > 0`),
so both are modelled as `[]`. -/
structure TitleProp where
  title : List RichText
deriving DecidableEq, Repr

/-- The `properties` mapping of a search result, restricted to the two
keys the script reads.  `titleProp`/`nameProp` are `none` when the key is
absent or its value is falsy (Python truthiness of `properties.get(...)`). -/
structure Props where
  titleProp : Option TitleProp
  nameProp : Option TitleProp
deriving DecidableEq, Repr

/-- One result of `client.search(query=...)`.  `properties` is `none` when
the `properties` key is absent or maps to an empty (falsy) mapping, which
is what `result.get("properties")` checks. -/
structure PageResult where
  object : String
  properties : Option Props
  id : String
deriving DecidableEq, Repr

/-- The Python expression
`result["properties"].get("title") or result["properties"].get("Name")`:
the `"title"` property when present and truthy, otherwise the `"Name"`
property. -/
def selected_title_prop (p : Props) : Option TitleProp :=
  p.titleProp <|> p.nameProp

/-- The check `title_prop and title_prop.get("title") and len(title_prop["title"]) > 0`
followed by `title_prop["title"][0]["plain_text"] == name`: a property
value matches when it exists, its rich-text array is non-empty, and the
first run's `plain_text` equals the queried name. -/
def prop_matches (name : String) : Option TitleProp → Bool
  | none => false
  | some tp =>
    match tp.title with
    | [] => false
    | run :: _ => run.plain_text == name

/-- The condition under which the loop body of `find_page_by_name` returns
`result["id"]`: the result is a page, has truthy properties, and the
selected title property (`"title"` preferred, else `"Name"`) matches. -/
def result_matches (name : String) (r : PageResult) : Bool :=
  r.object == "page" &&
    (match r.properties with
     | none => false
     | some props => prop_matches name (selected_title_prop props))

/-- The `for result in response["results"]` loop of `find_page_by_name`:
returns the id of the first matching result, else `none`. -/
def find_page_in_results (name : String) : List PageResult → Option String
  | [] => none
  | r :: rest =>
    if result_matches name r then some r.id else find_page_in_results name rest

/-- `NotionClient.find_page_by_name`: the search call either raises (the
`except` branch logs and falls through to `return None`) or yields a result
list that is scanned by the loop. -/
def find_page_by_name (name : String) (resp : Except String (List PageResult)) :
    Option String :=
  match resp with
  | .error _ => none
  | .ok results => find_page_in_results name results

/-- A Notion content block as built by `create_reflections_child_page`:
each variant carries its single text run's content string. -/
inductive Block where
  | heading2 (content : String)
  | bulletedListItem (content : String)
  | paragraph (content : String)
deriving DecidableEq, Repr

/-- The `content_blocks` list built by `create_reflections_child_page`:
starts empty; if `tasks` is truthy (non-empty) a heading is appended and
then one bulleted item per task (in order, carrying `task["content"]`);
otherwise a single paragraph is appended. -/
def content_blocks (tasks : List Task) : List Block :=
  if tasks ≠ [] then
    tasks.foldl (fun acc t => acc ++ [Block.bulletedListItem t.content])
      [Block.heading2 "Reflection Tasks"]
  else
    [Block.paragraph "No reflection tasks found for this week."]

/-! ## Week title -/

/-- `datetime.strftime("%b")`: the C-locale abbreviated month name. -/
def monthAbbrev : Nat → String
  | 1 => "Jan" | 2 => "Feb" | 3 => "Mar" | 4 => "Apr"
  | 5 => "May" | 6 => "Jun" | 7 => "Jul" | 8 => "Aug"
  | 9 => "Sep" | 10 => "Oct" | 11 => "Nov" | 12 => "Dec"
  | _ => ""

/-- `datetime.strftime("%d")`: the day of the month, zero-padded to two
digits. -/
def pad2 (n : Nat) : String :=
  if n < 10 then "0" ++ toString n else toString n

/-- A calendar date, reduced to the two components `get_week_title` reads. -/
structure Date where
  month : Nat
  day : Nat
deriving DecidableEq, Repr

/-- `get_week_title`: `week_number = (day - 1) // 7 + 1`, formatted as
`"%b %d Week <n>"`.  (The `first_day = date.replace(day=1)` line of the
source is dead code and is omitted.) -/
def get_week_title (date : Date) : String :=
  let days_passed := date.day - 1
  let week_number := days_passed / 7 + 1
  let month_day := monthAbbrev date.month ++ " " ++ pad2 date.day
  month_day ++ " Week " ++ toString week_number

/-- The page title computed in `main`: `f"Reflections {get_week_title(today)}"`. -/
def pageTitle (d : Date) : String :=
  "Reflections " ++ get_week_title d

/-! ## Orchestrator -/

/-- Python truthiness of an optional string: `None` and `""` are falsy. -/
def pyTruthy : Option String → Bool
  | none => false
  | some s => s != ""

/-- The outcomes of the environment lookups and of each network call made
during one run; `main` is a deterministic function of this record. -/
structure World where
  todoistToken : Option String
  notionToken : Option String
  projectsResp : Except String (List Project)
  tasksResp : Except String (List Task)
  searchResp : Except String (List PageResult)
  retrieveResp : Except String Unit
  createResp : Except String String
  today : Date

/-- An observable event of a run: a network call or a console print. -/
inductive Event where
  | getProjectsCall
  | getTasksCall (projectId : String)
  | searchCall (query : String)
  | retrieveCall (pageId : String)
  | createCall (parentId : String) (title : String) (children : List Block)
  | printLine (s : String)
deriving DecidableEq, Repr

/-- Whether an event is a network call (anything but a console print). -/
def Event.isNetworkCall : Event → Bool
  | .printLine _ => false
  | _ => true

/-- How a run of `main` ends: a normal return, or an uncaught exception. -/
inductive MainResult where
  | normal
  | exn (msg : String)
deriving DecidableEq, Repr

/-- The fallback Journal page identifier hardcoded in `main`. -/
def fallbackJournalId : String := "22a44c06-f763-809c-8fa7-cf92cb21f61e"

/-- The message printed when a required environment variable is missing. -/
def missingEnvMsg : String :=
  "Missing required environment variables: TODOIST_TOKEN, NOTION_TOKEN"

/-- The events produced inside `find_page_by_name`: the search call itself,
plus the `except` branch's error print when the call raises. -/
def searchEvents (name : String) (resp : Except String (List PageResult)) :
    List Event :=
  match resp with
  | .error e => [.searchCall name, .printLine ("Error finding page " ++ name ++ ": " ++ e)]
  | .ok _ => [.searchCall name]

/-- The orchestrator `main`, embedded as a trace-producing function of the
`World`.  Each branch mirrors the source line by line: the env check
(`not all([...])`), project resolution with its falsy check, task fetch,
Journal search with fallback id on a falsy result, the access test
(`pages.retrieve`, fatal on error), and page creation (error caught and
logged).  `raise_for_status` on the two Todoist calls propagates out of
`main` as `MainResult.exn`. -/
def main (w : World) : List Event × MainResult :=
  if !(pyTruthy w.todoistToken && pyTruthy w.notionToken) then
    ([.printLine missingEnvMsg], .normal)
  else
    match w.projectsResp with
    | .error e => ([.getProjectsCall], .exn e)
    | .ok projects =>
      match get_project_id projects "Reflections" with
      | none =>
        ([.getProjectsCall, .printLine "Reflections project not found in Todoist"], .normal)
      | some pid =>
        if pid == "" then
          ([.getProjectsCall, .printLine "Reflections project not found in Todoist"], .normal)
        else
          match w.tasksResp with
          | .error e =>
            ([.getProjectsCall,
              .printLine ("Found Reflections project with ID: " ++ pid),
              .getTasksCall pid], .exn e)
          | .ok tasks =>
            let pre : List Event :=
              [.getProjectsCall,
               .printLine ("Found Reflections project with ID: " ++ pid),
               .getTasksCall pid,
               .printLine ("Found " ++ toString tasks.length ++ " tasks in Reflections project")]
            let jid : String :=
              match find_page_by_name "Journal" w.searchResp with
              | some s => if s == "" then fallbackJournalId else s
              | none => fallbackJournalId
            let pre2 : List Event :=
              pre ++ searchEvents "Journal" w.searchResp ++
                [.printLine "Found Journal page", .retrieveCall jid]
            match w.retrieveResp with
            | .error e =>
              (pre2 ++ [.printLine ("Cannot access Journal page: " ++ e)], .normal)
            | .ok _ =>
              let title := pageTitle w.today
              let pre3 : List Event :=
                pre2 ++ [.printLine ("Creating page with title: " ++ title),
                         .createCall jid title (content_blocks tasks)]
              match w.createResp with
              | .error e =>
                (pre3 ++ [.printLine ("Error creating page: " ++ e)], .normal)
              | .ok pageId =>
                (pre3 ++ [.printLine ("Successfully created page with ID: " ++ pageId),
                          .printLine ("Page contains " ++ toString tasks.length ++ " reflection tasks")],
                 .normal)

/-! ## Specification-side predicate for the search filter (refinement check) -/

/-- Modelled from the spec's wording of the filter in `find_page_by_name`:
the result is a page with a non-empty properties mapping and has a
`"title"` or `"Name"` property whose title array is non-empty and whose
first rich-text run's `plain_text` equals the queried name.  Compared
against `result_matches`, which is translated from the code. -/
def claim_matches (name : String) (r : PageResult) : Bool :=
  r.object == "page" &&
    (match r.properties with
     | none => false
     | some props =>
       prop_matches name props.titleProp || prop_matches name props.nameProp)

/-! ## Helper lemmas -/

lemma foldl_append_bullets (ts : List Task) (init : List Block) :
    ts.foldl (fun acc t => acc ++ [Block.bulletedListItem t.content]) init
      = init ++ ts.map (fun t => Block.bulletedListItem t.content) := by
  induction ts generalizing init with
  | nil => simp
  | cons t ts ih => simp [List.foldl_cons, ih]

lemma content_blocks_eq (tasks : List Task) :
    content_blocks tasks =
      if tasks = [] then [Block.paragraph "No reflection tasks found for this week."]
      else Block.heading2 "Reflection Tasks"
        :: tasks.map (fun t => Block.bulletedListItem t.content) := by
  cases tasks with
  | nil => simp [content_blocks]
  | cons t ts => simp [content_blocks, foldl_append_bullets]

lemma find_page_in_results_eq_find? (name : String) (rs : List PageResult) :
    find_page_in_results name rs = (rs.find? (result_matches name)).map PageResult.id := by
  induction rs with
  | nil => rfl
  | cons r rest ih =>
    cases hb : result_matches name r with
    | true => simp [find_page_in_results, hb, List.find?_cons_of_pos]
    | false =>
      rw [find_page_in_results, if_neg (by simp [hb]),
        List.find?_cons_of_neg _ (by simp [hb]), ih]

lemma result_matches_implies_claim (name : String) (r : PageResult)
    (h : result_matches name r = true) : claim_matches name r = true := by
  unfold result_matches at h
  unfold claim_matches
  cases hp : r.properties with
  | none => rw [hp] at h; simp at h
  | some props =>
    rw [hp] at h
    simp only [Bool.and_eq_true] at h ⊢
    refine ⟨h.1, ?_⟩
    have h2 := h.2
    unfold selected_title_prop at h2
    cases ht : props.titleProp with
    | none =>
      rw [ht] at h2
      simp only [Option.none_orElse] at h2
      simp [h2]
    | some tp =>
      rw [ht] at h2
      simp only [Option.some_orElse] at h2
      simp [h2]

lemma createCall_not_mem_searchEvents (n p t : String) (b : List Block)
    (resp : Except String (List PageResult)) :
    Event.createCall p t b ∉ searchEvents n resp := by
  cases resp <;> simp [searchEvents]

/-! ## Claim theorems -/

/-- Claim C1: for every task list, the children built by
`create_reflections_child_page` are exactly one heading block
("Reflection Tasks") followed by one bulleted-list block per task in
order, each carrying the task's `content` (`len(T)+1` blocks total) when
the list is non-empty, and exactly the single paragraph block
"No reflection tasks found for this week." when it is empty — the two
forms are never mixed. -/
theorem create_child_page_block_shape (tasks : List Task) :
    (tasks ≠ [] →
      content_blocks tasks
        = Block.heading2 "Reflection Tasks"
            :: tasks.map (fun t => Block.bulletedListItem t.content)
        ∧ (content_blocks tasks).length = tasks.length + 1)
    ∧ (tasks = [] →
      content_blocks tasks = [Block.paragraph "No reflection tasks found for this week."]) := by
  refine ⟨fun h => ?_, fun h => ?_⟩
  · rw [content_blocks_eq, if_neg h]
    exact ⟨rfl, by simp⟩
  · rw [content_blocks_eq, if_pos h]

/-- Witness for C1 at a one-task list and at the empty list. -/
theorem create_child_page_block_shape_spot :
    content_blocks [⟨"T1", "Reflect on sleep"⟩]
      = Block.heading2 "Reflection Tasks"
          :: [(⟨"T1", "Reflect on sleep"⟩ : Task)].map (fun t => Block.bulletedListItem t.content)
    ∧ content_blocks ([] : List Task)
        = [Block.paragraph "No reflection tasks found for this week."] :=
  ⟨((create_child_page_block_shape [⟨"T1", "Reflect on sleep"⟩]).1 (by simp)).1,
   (create_child_page_block_shape []).2 rfl⟩

/-- Claim C5: `get_project_id` returns the id of the first project whose
`name` equals the given name exactly (the `find?` of the list), and
returns `none` when no project's name matches. -/
theorem get_project_id_first_exact_match (projects : List Project) (name : String) :
    get_project_id projects name
      = (projects.find? (fun p => p.name == name)).map Project.id
    ∧ ((∀ p ∈ projects, p.name ≠ name) → get_project_id projects name = none) := by
  constructor
  · induction projects with
    | nil => rfl
    | cons p ps ih =>
      cases hb : (p.name == name) with
      | true => simp [get_project_id, hb]
      | false => simp [get_project_id, hb, ih]
  · intro h
    induction projects with
    | nil => rfl
    | cons p ps ih =>
      have hp : p.name ≠ name := h p (by simp)
      rw [get_project_id, if_neg (by simpa using hp)]
      exact ih fun q hq => h q (by simp [hq])

/-- Witness for C5: no project named "Reflections" yields `none`. -/
theorem get_project_id_first_exact_match_spot :
    get_project_id [⟨"1234", "Work"⟩] "Reflections" = none :=
  (get_project_id_first_exact_match [⟨"1234", "Work"⟩] "Reflections").2
    (by intro p hp; simp at hp; subst hp; decide)

/-- Claim C9: the block sequence depends only on each task's `content`
field — two task lists with the same contents (whatever their ids or
other fields) produce identical children blocks. -/
theorem blocks_depend_only_on_content (T1 T2 : List Task)
    (h : T1.map Task.content = T2.map Task.content) :
    content_blocks T1 = content_blocks T2 := by
  rw [content_blocks_eq, content_blocks_eq]
  have hmap : T1.map (fun t => Block.bulletedListItem t.content)
      = T2.map (fun t => Block.bulletedListItem t.content) := by
    have hc := congrArg (List.map Block.bulletedListItem) h
    simpa [List.map_map, Function.comp] using hc
  by_cases h1 : T1 = []
  · have h2 : T2 = [] := by
      have hh := h
      rw [h1] at hh
      simpa using hh.symm
    simp [h1, h2]
  · have h2 : T2 ≠ [] := by
      intro hh
      apply h1
      rw [hh] at h
      simpa using h
    simp [h1, h2, hmap]

/-- Witness for C9: same content, different ids, same blocks. -/
theorem blocks_depend_only_on_content_spot :
    content_blocks [⟨"T1", "Reflect on sleep"⟩]
      = content_blocks [⟨"OTHER-ID", "Reflect on sleep"⟩] :=
  blocks_depend_only_on_content [⟨"T1", "Reflect on sleep"⟩] [⟨"OTHER-ID", "Reflect on sleep"⟩] rfl

/-- Claim C10: `find_page_by_name` is total over arbitrary search
responses — when the search call raises, the error is caught and `none`
is returned, and a result list in which no result passes the code's
filter (not a page, falsy properties, neither `"title"` nor `"Name"`
present, empty title array, or mismatching text) yields `none`. -/
theorem find_page_total_skip (name : String) :
    (∀ e, find_page_by_name name (Except.error e) = none)
    ∧ ∀ rs : List PageResult, (∀ r ∈ rs, result_matches name r = false) →
        find_page_by_name name (Except.ok rs) = none := by
  refine ⟨fun e => rfl, fun rs h => ?_⟩
  rw [find_page_by_name, find_page_in_results_eq_find?]
  have hfind : rs.find? (result_matches name) = none :=
    List.find?_eq_none.mpr fun r hr => by simp [h r hr]
  rw [hfind]
  rfl

/-- Witness for C10: a malformed (non-page) result is skipped. -/
theorem find_page_total_skip_spot :
    find_page_by_name "Journal" (Except.ok [⟨"database", none, "D1"⟩]) = none :=
  (find_page_total_skip "Journal").2 [⟨"database", none, "D1"⟩]
    (by intro r hr; simp at hr; subst hr; rfl)

/-- A search result with a truthy `"title"` property that does not match
the query but a `"Name"` property that does: the code examines only the
`"title"` property and skips this result. -/
def pageResultA : PageResult :=
  ⟨"page", some ⟨some ⟨[⟨"Weekly notes"⟩]⟩, some ⟨[⟨"Journal"⟩]⟩⟩, "A"⟩

/-- A later search result whose `"title"` property matches the query. -/
def pageResultB : PageResult :=
  ⟨"page", some ⟨some ⟨[⟨"Journal"⟩]⟩, none⟩, "B"⟩

/-- Counterexample to claim C6 as stated: `pageResultA` satisfies the
claim's filter (it has a `"title"` or `"Name"` property — namely `"Name"`
— whose first run equals "Journal"), and it comes first, yet
`find_page_by_name` returns the id of the later `pageResultB`, because the
code prefers the truthy `"title"` property and never falls back to
`"Name"` when `"title"` exists but does not match. -/
theorem find_page_claim_counterexample :
    claim_matches "Journal" pageResultA = true
    ∧ find_page_by_name "Journal" (Except.ok [pageResultA, pageResultB]) = some "B"
    ∧ ([pageResultA, pageResultB].find? (claim_matches "Journal")).map PageResult.id
        = some "A" := by
  refine ⟨rfl, rfl, rfl⟩

/-- Claim C6 (amended): `find_page_by_name` returns the id of the first
result in response order that passes the code's filter — object "page",
truthy properties, and the examined property (`"title"` when present and
truthy, otherwise `"Name"`) has a non-empty title array whose first run's
`plain_text` equals the queried name.  Consequently, any returned id does
belong to some result with a matching `"title"`-or-`"Name"` property. -/
theorem find_page_first_selected_match (name : String) (rs : List PageResult) :
    find_page_by_name name (Except.ok rs)
      = (rs.find? (result_matches name)).map PageResult.id
    ∧ ∀ i, find_page_by_name name (Except.ok rs) = some i →
        ∃ r ∈ rs, claim_matches name r = true ∧ r.id = i := by
  refine ⟨find_page_in_results_eq_find? name rs, fun i hi => ?_⟩
  rw [find_page_by_name, find_page_in_results_eq_find?] at hi
  obtain ⟨r, hfind, hid⟩ := Option.map_eq_some'.mp hi
  exact ⟨r, List.mem_of_find?_eq_some hfind,
    result_matches_implies_claim name r (List.find?_some hfind), hid⟩

/-- Witness for C6 (amended), at a single matching result. -/
theorem find_page_first_selected_match_spot :
    ∃ r ∈ [pageResultB], claim_matches "Journal" r = true ∧ r.id = "B" :=
  (find_page_first_selected_match "Journal" [pageResultB]).2 "B" rfl

/-- Claim C2: for every month 1–12 and day 1–31, the page title built by
the orchestrator is "Reflections " followed by the abbreviated month
name, a space, the zero-padded two-digit day, " Week ", and the ordinal
`(d - 1) / 7 + 1`; the ordinal is 1 for days 1–7, 2 for 8–14, 3 for
15–21, 4 for 22–28, and 5 for 29–31, regardless of the month. -/
theorem week_title_format (m d : Nat)
    (hm1 : 1 ≤ m) (hm2 : m ≤ 12) (hd1 : 1 ≤ d) (hd2 : d ≤ 31) :
    pageTitle ⟨m, d⟩
      = "Reflections " ++ (monthAbbrev m ++ " " ++ pad2 d ++ " Week " ++ toString ((d - 1) / 7 + 1))
    ∧ (pad2 d).length = 2
    ∧ (d ≤ 7 → (d - 1) / 7 + 1 = 1)
    ∧ (8 ≤ d → d ≤ 14 → (d - 1) / 7 + 1 = 2)
    ∧ (15 ≤ d → d ≤ 21 → (d - 1) / 7 + 1 = 3)
    ∧ (22 ≤ d → d ≤ 28 → (d - 1) / 7 + 1 = 4)
    ∧ (29 ≤ d → (d - 1) / 7 + 1 = 5)
    ∧ monthAbbrev m ≠ "" := by
  refine ⟨rfl, ?_, fun h => by omega, fun h h2 => by omega, fun h h2 => by omega,
    fun h h2 => by omega, fun h => by omega, ?_⟩
  · interval_cases d <;> rfl
  · interval_cases m <;> decide

/-- Witness for C2 at November 5 (the spec's end-to-end scenario date). -/
theorem week_title_format_spot :
    pageTitle ⟨11, 5⟩ = "Reflections Nov 05 Week 1" := by
  rw [(week_title_format 11 5 (by decide) (by decide) (by decide) (by decide)).1]
  rfl

/-- Claim C3: when either required environment variable is absent, `main`
prints exactly the missing-variables message and returns normally — no
network call is made and no exception escapes. -/
theorem missing_env_no_calls (w : World)
    (h : w.todoistToken = none ∨ w.notionToken = none) :
    main w = ([Event.printLine missingEnvMsg], MainResult.normal)
    ∧ ∀ ev ∈ (main w).1, ev.isNetworkCall = false := by
  have hmain : main w = ([Event.printLine missingEnvMsg], MainResult.normal) := by
    rcases h with h | h <;> simp [main, pyTruthy, h]
  refine ⟨hmain, ?_⟩
  rw [hmain]
  intro ev hev
  simp only [List.mem_singleton] at hev
  subst hev
  rfl

/-- A world whose TODOIST_TOKEN is unset. -/
def wMissingEnv : World :=
  { todoistToken := none, notionToken := some "secret",
    projectsResp := .ok [], tasksResp := .ok [], searchResp := .ok [],
    retrieveResp := .ok (), createResp := .ok "", today := ⟨11, 5⟩ }

/-- Witness for C3: the concrete run with TODOIST_TOKEN unset. -/
theorem missing_env_no_calls_spot :
    main wMissingEnv = ([Event.printLine missingEnvMsg], MainResult.normal) :=
  (missing_env_no_calls wMissingEnv (Or.inl rfl)).1

/-- Claim C8: an empty-string value for either required environment
variable is treated like an absent one by the falsy `not all([...])`
check — `main` prints the missing-variables message and returns with no
network calls. -/
theorem empty_env_no_calls (w : World)
    (h : w.todoistToken = some "" ∨ w.notionToken = some "") :
    main w = ([Event.printLine missingEnvMsg], MainResult.normal)
    ∧ ∀ ev ∈ (main w).1, ev.isNetworkCall = false := by
  have hfalse : pyTruthy (some "") = false := rfl
  have hmain : main w = ([Event.printLine missingEnvMsg], MainResult.normal) := by
    rcases h with h | h <;> simp [main, h, hfalse]
  refine ⟨hmain, ?_⟩
  rw [hmain]
  intro ev hev
  simp only [List.mem_singleton] at hev
  subst hev
  rfl

/-- A world whose NOTION_TOKEN is set but empty. -/
def wEmptyEnv : World :=
  { todoistToken := some "secret", notionToken := some "",
    projectsResp := .ok [], tasksResp := .ok [], searchResp := .ok [],
    retrieveResp := .ok (), createResp := .ok "", today := ⟨11, 5⟩ }

/-- Witness for C8: the concrete run with NOTION_TOKEN set to "". -/
theorem empty_env_no_calls_spot :
    main wEmptyEnv = ([Event.printLine missingEnvMsg], MainResult.normal) :=
  (empty_env_no_calls wEmptyEnv (Or.inr rfl)).1

/-- Claim C4: when the destination search raises, `find_page_by_name`
catches the error and returns `none` (having logged it), the orchestrator
substitutes the hardcoded fallback Journal id without aborting, the run
still reaches page creation (the retrieve and create calls target the
fallback id), and the run ends normally whatever the creation outcome. -/
theorem search_error_fallback (w : World) (ps : List Project) (pid : String)
    (tasks : List Task) (e : String)
    (h1 : pyTruthy w.todoistToken = true) (h2 : pyTruthy w.notionToken = true)
    (h3 : w.projectsResp = Except.ok ps)
    (h4 : get_project_id ps "Reflections" = some pid)
    (h5 : pid ≠ "")
    (h6 : w.tasksResp = Except.ok tasks)
    (hs : w.searchResp = Except.error e)
    (hr : w.retrieveResp = Except.ok ()) :
    find_page_by_name "Journal" w.searchResp = none
    ∧ Event.printLine ("Error finding page " ++ "Journal" ++ ": " ++ e) ∈ (main w).1
    ∧ Event.retrieveCall fallbackJournalId ∈ (main w).1
    ∧ Event.createCall fallbackJournalId (pageTitle w.today) (content_blocks tasks)
        ∈ (main w).1
    ∧ (main w).2 = MainResult.normal := by
  have h5b : (pid == "") = false := by simpa using h5
  refine ⟨by rw [hs]; rfl, ?_, ?_, ?_, ?_⟩ <;>
    cases hc : w.createResp <;>
      simp [main, h1, h2, h3, h4, h5b, h6, hs, hr, hc, searchEvents, find_page_by_name]

/-- A world in which the Notion search raises. -/
def wSearchErr : World :=
  { todoistToken := some "t", notionToken := some "n",
    projectsResp := .ok [⟨"P1", "Reflections"⟩],
    tasksResp := .ok [⟨"T1", "Reflect on sleep"⟩],
    searchResp := .error "APIResponseError", retrieveResp := .ok (),
    createResp := .ok "NEWPAGE", today := ⟨11, 5⟩ }

/-- Witness for C4: the concrete run whose search raises. -/
theorem search_error_fallback_spot :
    Event.printLine ("Error finding page " ++ "Journal" ++ ": " ++ "APIResponseError")
        ∈ (main wSearchErr).1
    ∧ Event.createCall fallbackJournalId (pageTitle wSearchErr.today)
        (content_blocks [⟨"T1", "Reflect on sleep"⟩]) ∈ (main wSearchErr).1 :=
  ⟨(search_error_fallback wSearchErr [⟨"P1", "Reflections"⟩] "P1"
      [⟨"T1", "Reflect on sleep"⟩] "APIResponseError"
      rfl rfl rfl rfl (by decide) rfl rfl rfl).2.1,
   (search_error_fallback wSearchErr [⟨"P1", "Reflections"⟩] "P1"
      [⟨"T1", "Reflect on sleep"⟩] "APIResponseError"
      rfl rfl rfl rfl (by decide) rfl rfl rfl).2.2.2.1⟩

/-- Claim C7: a failing page-creation call is caught by `main`, which
logs a message carrying the exception detail and returns normally (no
exception escapes, no distinct failure signal); a failing destination
retrieve instead ends the run right there — normally, but with no page
creation ever attempted. -/
theorem create_error_recovered (w : World) (ps : List Project) (pid : String)
    (tasks : List Task)
    (h1 : pyTruthy w.todoistToken = true) (h2 : pyTruthy w.notionToken = true)
    (h3 : w.projectsResp = Except.ok ps)
    (h4 : get_project_id ps "Reflections" = some pid)
    (h5 : pid ≠ "")
    (h6 : w.tasksResp = Except.ok tasks) :
    (∀ e, w.retrieveResp = Except.ok () → w.createResp = Except.error e →
        (main w).2 = MainResult.normal
        ∧ Event.printLine ("Error creating page: " ++ e) ∈ (main w).1)
    ∧ (∀ e, w.retrieveResp = Except.error e →
        (main w).2 = MainResult.normal
        ∧ Event.printLine ("Cannot access Journal page: " ++ e) ∈ (main w).1
        ∧ ∀ p t b, Event.createCall p t b ∉ (main w).1) := by
  have h5b : (pid == "") = false := by simpa using h5
  constructor
  · intro e hr hc
    constructor <;> simp [main, h1, h2, h3, h4, h5b, h6, hr, hc]
  · intro e hr
    refine ⟨?_, ?_, ?_⟩
    · simp [main, h1, h2, h3, h4, h5b, h6, hr]
    · simp [main, h1, h2, h3, h4, h5b, h6, hr]
    · intro p t b
      simp [main, h1, h2, h3, h4, h5b, h6, hr, createCall_not_mem_searchEvents]

/-- A world in which page creation raises. -/
def wCreateErr : World :=
  { todoistToken := some "t", notionToken := some "n",
    projectsResp := .ok [⟨"P1", "Reflections"⟩],
    tasksResp := .ok [⟨"T1", "Reflect on sleep"⟩],
    searchResp := .ok [], retrieveResp := .ok (),
    createResp := .error "validation_error", today := ⟨11, 5⟩ }

/-- Witness for C7: the concrete run whose create call raises. -/
theorem create_error_recovered_spot :
    (main wCreateErr).2 = MainResult.normal
    ∧ Event.printLine ("Error creating page: " ++ "validation_error") ∈ (main wCreateErr).1 :=
  (create_error_recovered wCreateErr [⟨"P1", "Reflections"⟩] "P1"
      [⟨"T1", "Reflect on sleep"⟩] rfl rfl rfl rfl (by decide) rfl).1
    "validation_error" rfl rfl

end ReflectionsSync
